import Mathlib

/-!
Verification development for the `busio.UART` binding
(`shared-bindings/busio/UART.c`): a shallow embedding of the binding's
construction/validation logic, the stream methods (`read`, `write`,
`ioctl`), the property getters/setters and `deinit`, together with
theorems settling the specification's claims about them.

The `common_hal_busio_uart_*` functions are declared by the binding but
implemented per-port elsewhere in the repository; where a claim depends
on them they are modelled from the specification (each such definition
says so in its doc comment). Machine integers are modelled as `Int`/`Nat`
with explicit reduction modulo 2^8 where the C code converts to
`uint8_t`; `mp_float_t` timeouts are modelled as `ℚ`.
-/

deriving instance DecidableEq for Except

namespace BusioUart

/-- The `uart_parity_t` enum (`PARITY_NONE` / `PARITY_EVEN` / `PARITY_ODD`). -/
inductive uart_parity_t
  | none
  | even
  | odd
  deriving DecidableEq, Repr

/-- A pin-position argument (`mp_obj_t`): `mp_const_none`, a microcontroller
pin (with its free/in-use status from the external pin registry and an id),
or an object that is not a pin at all. -/
inductive PinArg
  | none
  | pin (free : Bool) (id : Nat)
  | notAPin
  deriving DecidableEq, Repr

/-- The object passed as the `parity` keyword argument: the `EVEN` singleton,
the `ODD` singleton, `mp_const_none`, or any other object. -/
inductive ParityArg
  | evenObj
  | oddObj
  | noneObj
  | other (tag : Nat)
  deriving DecidableEq, Repr

/-- Errors raised by the binding and (modelled) HAL. Each constructor stands
for one distinct raise site / message. -/
inductive UartError
  | invalidWordSize
  | invalidStopBits
  | invalidTimeout
  | invalidBufferSize
  | txRxBothNone
  | expectedPin
  | pinInUse
  | deinitialized
  deriving DecidableEq, Repr

/-- Modelled from the spec: `assert_pin` lives in
`shared-bindings/microcontroller/Pin.c`, not in the UART binding. Per §3/§6 a
line argument must be a pin object, or absent (`None`) when `none_ok` holds;
anything else is a type error. -/
def assert_pin (obj : PinArg) (none_ok : Bool) : Except UartError Unit :=
  match obj, none_ok with
  | PinArg.pin _ _, _ => Except.ok ()
  | PinArg.none, true => Except.ok ()
  | _, _ => Except.error UartError.expectedPin

/-- Modelled from the spec: `assert_pin_free` consults the external
pin-ownership registry (§3, §6) and fails when the pin is already claimed;
`None` passes through. -/
def assert_pin_free (obj : PinArg) : Except UartError Unit :=
  match obj with
  | PinArg.pin false _ => Except.error UartError.pinInUse
  | _ => Except.ok ()

/-- C conversion of an `mp_int_t` to `uint8_t`: reduction modulo 2^8
(`uint8_t bits = args[ARG_bits].u_int;`). -/
def uint8_of_mp_int (n : Int) : Nat := (n % (256 : Int)).toNat

/-- `validate_timeout` (UART.c): raises `ValueError` ("timeout must be
0.0-100.0 seconds") when the timeout is below 0.0 or above 100.0. -/
def validate_timeout (timeout : ℚ) : Except UartError Unit :=
  if timeout < 0 ∨ 100 < timeout then Except.error UartError.invalidTimeout
  else Except.ok ()

/-- The state of a constructed UART session (`busio_uart_obj_t` together with
the per-port HAL state it owns: configuration, receive buffer, transmit-path
readiness, and the deinitialized flag). -/
structure UartState where
  deinited : Bool
  baudrate : Int
  timeout : ℚ
  bits : Nat
  parity : uart_parity_t
  stop : Nat
  rxBuf : List Nat
  rxCapacity : Nat
  readyToTx : Bool
  rts : PinArg
  cts : PinArg
  rs485_dir : PinArg
  rs485_invert : Bool
  deriving DecidableEq, Repr

/-- The arguments of `busio_uart_make_new` after `mp_arg_parse_all`: one field
per entry of `allowed_args` (the `timeout` object already converted by
`mp_obj_get_float`). -/
structure MakeNewArgs where
  tx : PinArg
  rx : PinArg
  baudrate : Int
  bits : Int
  parity : ParityArg
  stop : Int
  timeout : ℚ
  receiver_buffer_size : Int
  rts : PinArg
  cts : PinArg
  rs485_dir : PinArg
  rs485_invert : Bool
  deriving DecidableEq, Repr

/-- The `allowed_args` defaults of `busio_uart_make_new`: `tx` and `rx` are
required positional arguments; every keyword argument omitted takes the
default recorded in the table (baudrate 9600, bits 8, parity `None`, stop 1,
timeout small-int 1, receiver_buffer_size 64, rts/cts/rs485_dir `None`,
rs485_invert false). -/
def busio_uart_default_args (tx rx : PinArg) : MakeNewArgs :=
  { tx := tx
    rx := rx
    baudrate := 9600
    bits := 8
    parity := ParityArg.noneObj
    stop := 1
    timeout := 1
    receiver_buffer_size := 64
    rts := PinArg.none
    cts := PinArg.none
    rs485_dir := PinArg.none
    rs485_invert := false }

/-- Modelled from the spec: `common_hal_busio_uart_construct` is implemented
per-port, outside `src/`. Per §3 ("At least one of tx/rx must be present")
it rejects a call with both lines absent, per §4.1 ("`receiver_buffer_capacity`
negative → fails, kind `InvalidBufferSize`") it rejects a negative buffer
capacity, and otherwise it allocates the receive buffer, programs the framing
and arms the receive path, yielding an active session. -/
def common_hal_busio_uart_construct (tx rx rts cts rs485_dir : PinArg)
    (rs485_invert : Bool) (baudrate : Int) (bits : Nat)
    (parity : uart_parity_t) (stop : Nat) (timeout : ℚ)
    (receiver_buffer_size : Int) : Except UartError UartState :=
  if tx = PinArg.none ∧ rx = PinArg.none then
    Except.error UartError.txRxBothNone
  else if receiver_buffer_size < 0 then
    Except.error UartError.invalidBufferSize
  else Except.ok
    { deinited := false
      baudrate := baudrate
      timeout := timeout
      bits := bits
      parity := parity
      stop := stop
      rxBuf := []
      rxCapacity := receiver_buffer_size.toNat
      readyToTx := true
      rts := rts
      cts := cts
      rs485_dir := rs485_dir
      rs485_invert := rs485_invert }

/-- `busio_uart_make_new` (UART.c): asserts the rx and tx arguments are pins
or `None` and are free, truncates `bits` and `stop` to `uint8_t`, checks
`bits < 7 || bits > 9`, maps the parity singleton objects to `uart_parity_t`
(anything else is `PARITY_NONE`), checks `stop != 1 && stop != 2`, validates
the timeout, and only then calls `common_hal_busio_uart_construct`. -/
def busio_uart_make_new (a : MakeNewArgs) : Except UartError UartState :=
  match assert_pin a.rx true with
  | Except.error e => Except.error e
  | Except.ok _ =>
  match assert_pin_free a.rx with
  | Except.error e => Except.error e
  | Except.ok _ =>
  match assert_pin a.tx true with
  | Except.error e => Except.error e
  | Except.ok _ =>
  match assert_pin_free a.tx with
  | Except.error e => Except.error e
  | Except.ok _ =>
  let bits : Nat := uint8_of_mp_int a.bits
  if bits < 7 ∨ 9 < bits then Except.error UartError.invalidWordSize
  else
    let parity : uart_parity_t :=
      if a.parity = ParityArg.evenObj then uart_parity_t.even
      else if a.parity = ParityArg.oddObj then uart_parity_t.odd
      else uart_parity_t.none
    let stop : Nat := uint8_of_mp_int a.stop
    if stop ≠ 1 ∧ stop ≠ 2 then Except.error UartError.invalidStopBits
    else
      match validate_timeout a.timeout with
      | Except.error e => Except.error e
      | Except.ok _ =>
        common_hal_busio_uart_construct a.tx a.rx a.rts a.cts a.rs485_dir
          a.rs485_invert a.baudrate bits parity stop a.timeout
          a.receiver_buffer_size

/-- Modelled from the spec: `common_hal_busio_uart_deinited` reports whether
the session has been torn down (§4.4 states: Active / Deinitialized). -/
def common_hal_busio_uart_deinited (s : UartState) : Bool := s.deinited

/-- Modelled from the spec: `common_hal_busio_uart_deinit` releases the lines
and buffer and moves the session to the terminal Deinitialized state; §4.4
makes it idempotent (a repeat call is a no-op, not an error). -/
def common_hal_busio_uart_deinit (s : UartState) : UartState :=
  { s with deinited := true }

/-- `busio_uart_obj_deinit` (UART.c): delegates to the HAL deinit and returns
`None`; it performs no deinitialized check of its own. -/
def busio_uart_obj_deinit (s : UartState) : UartState :=
  common_hal_busio_uart_deinit s

/-- `check_for_deinit` (UART.c): raises the deinitialized error when the HAL
reports the session as deinitialized. -/
def check_for_deinit (s : UartState) : Except UartError Unit :=
  if common_hal_busio_uart_deinited s then Except.error UartError.deinitialized
  else Except.ok ()

/-- Modelled from the spec: `common_hal_busio_uart_read` (per-port, outside
`src/`) waits up to `timeout_seconds` for a first unit and then drains what is
currently available, up to `size` (§4.4); in this pure model the wait is
abstracted away and the call pops up to `size` units from the head of the
receive buffer, FIFO. -/
def common_hal_busio_uart_read (s : UartState) (size : Nat) : Nat × UartState :=
  let n := min size s.rxBuf.length
  (n, { s with rxBuf := s.rxBuf.drop n })

/-- Result of the binding's `read`: the count returned, the session state
afterwards, and whether the binding delegated to `common_hal_busio_uart_read`
(i.e. whether any receive-buffer access or timeout wait took place). -/
structure ReadResult where
  count : Nat
  state : UartState
  halReadCalled : Bool
  deriving DecidableEq, Repr

/-- `busio_uart_read` (UART.c): checks for deinit first, then returns 0
immediately when `size == 0` ("make sure we want at least 1 char") without
touching the HAL, and otherwise delegates to `common_hal_busio_uart_read`. -/
def busio_uart_read (s : UartState) (size : Nat) : Except UartError ReadResult :=
  match check_for_deinit s with
  | Except.error e => Except.error e
  | Except.ok _ =>
    if size = 0 then Except.ok { count := 0, state := s, halReadCalled := false }
    else
      let r := common_hal_busio_uart_read s size
      Except.ok { count := r.1, state := r.2, halReadCalled := true }

/-- Modelled from the spec: `common_hal_busio_uart_write` (per-port, outside
`src/`) hands the payload to the hardware transmit path and returns the count
accepted (§4.4); in this pure model the whole payload is accepted and the
session state is unchanged. -/
def common_hal_busio_uart_write (s : UartState) (data : List Nat) :
    Nat × UartState :=
  (data.length, s)

/-- `busio_uart_write` (UART.c): checks for deinit, then delegates to
`common_hal_busio_uart_write`. -/
def busio_uart_write (s : UartState) (data : List Nat) :
    Except UartError (Nat × UartState) :=
  match check_for_deinit s with
  | Except.error e => Except.error e
  | Except.ok _ => Except.ok (common_hal_busio_uart_write s data)

/-- Modelled from the spec: `common_hal_busio_uart_rx_characters_available`
is the ReceiveBuffer `occupancy()` observable (§4.2). -/
def common_hal_busio_uart_rx_characters_available (s : UartState) : Nat :=
  s.rxBuf.length

/-- Modelled from the spec: `common_hal_busio_uart_ready_to_tx` reports
whether the hardware transmit path can currently accept at least one unit
(§4.4 readiness_poll). -/
def common_hal_busio_uart_ready_to_tx (s : UartState) : Bool := s.readyToTx

/-- `MP_IOCTL_POLL` request code (py/ioctl.h). -/
def MP_IOCTL_POLL : Nat := 3

/-- `MP_IOCTL_POLL_RD` flag (py/ioctl.h). -/
def MP_IOCTL_POLL_RD : Nat := 1

/-- `MP_IOCTL_POLL_WR` flag (py/ioctl.h). -/
def MP_IOCTL_POLL_WR : Nat := 4

/-- `MP_EINVAL` errno value. -/
def MP_EINVAL : Nat := 22

/-- Outcome of `busio_uart_ioctl`: a returned flag word, or the C
`MP_STREAM_ERROR` return with the errno stored through `errcode`. -/
inductive IoctlResult
  | ret (value : Nat)
  | streamError (errcode : Nat)
  deriving DecidableEq, Repr

/-- `busio_uart_ioctl` (UART.c): checks for deinit; on `MP_IOCTL_POLL` it
builds the result flags, setting `MP_IOCTL_POLL_RD` when readability was
requested and characters are available, and `MP_IOCTL_POLL_WR` when
writability was requested and the transmit path is ready; any other request
yields `MP_STREAM_ERROR` with `MP_EINVAL`. -/
def busio_uart_ioctl (s : UartState) (request : Nat) (arg : Nat) :
    Except UartError IoctlResult :=
  match check_for_deinit s with
  | Except.error e => Except.error e
  | Except.ok _ =>
    if request = MP_IOCTL_POLL then
      let flags := arg
      let ret : Nat := 0
      let ret : Nat :=
        if flags &&& MP_IOCTL_POLL_RD ≠ 0 ∧
            common_hal_busio_uart_rx_characters_available s > 0
        then ret ||| MP_IOCTL_POLL_RD else ret
      let ret : Nat :=
        if flags &&& MP_IOCTL_POLL_WR ≠ 0 ∧
            common_hal_busio_uart_ready_to_tx s = true
        then ret ||| MP_IOCTL_POLL_WR else ret
      Except.ok (IoctlResult.ret ret)
    else
      Except.ok (IoctlResult.streamError MP_EINVAL)

/-- Modelled from the spec: the HAL baudrate getter (§4.4 get/set_baudrate). -/
def common_hal_busio_uart_get_baudrate (s : UartState) : Int := s.baudrate

/-- Modelled from the spec: the HAL baudrate setter; baudrate has no range
check beyond what the hardware accepts (§4.1). -/
def common_hal_busio_uart_set_baudrate (s : UartState) (baudrate : Int) :
    UartState :=
  { s with baudrate := baudrate }

/-- `busio_uart_obj_get_baudrate` (UART.c). -/
def busio_uart_obj_get_baudrate (s : UartState) : Except UartError Int :=
  match check_for_deinit s with
  | Except.error e => Except.error e
  | Except.ok _ => Except.ok (common_hal_busio_uart_get_baudrate s)

/-- `busio_uart_obj_set_baudrate` (UART.c). -/
def busio_uart_obj_set_baudrate (s : UartState) (baudrate : Int) :
    Except UartError UartState :=
  match check_for_deinit s with
  | Except.error e => Except.error e
  | Except.ok _ => Except.ok (common_hal_busio_uart_set_baudrate s baudrate)

/-- `busio_uart_obj_get_in_waiting` (UART.c). -/
def busio_uart_obj_get_in_waiting (s : UartState) : Except UartError Nat :=
  match check_for_deinit s with
  | Except.error e => Except.error e
  | Except.ok _ => Except.ok (common_hal_busio_uart_rx_characters_available s)

/-- Modelled from the spec: the HAL timeout getter (§4.4 get/set_timeout). -/
def common_hal_busio_uart_get_timeout (s : UartState) : ℚ := s.timeout

/-- Modelled from the spec: the HAL timeout setter stores the already
validated value (§4.4). -/
def common_hal_busio_uart_set_timeout (s : UartState) (timeout : ℚ) :
    UartState :=
  { s with timeout := timeout }

/-- `busio_uart_obj_get_timeout` (UART.c). -/
def busio_uart_obj_get_timeout (s : UartState) : Except UartError ℚ :=
  match check_for_deinit s with
  | Except.error e => Except.error e
  | Except.ok _ => Except.ok (common_hal_busio_uart_get_timeout s)

/-- `busio_uart_obj_set_timeout` (UART.c): checks for deinit, converts the
argument to float, runs `validate_timeout`, then stores it via the HAL. -/
def busio_uart_obj_set_timeout (s : UartState) (timeout : ℚ) :
    Except UartError UartState :=
  match check_for_deinit s with
  | Except.error e => Except.error e
  | Except.ok _ =>
    match validate_timeout timeout with
    | Except.error e => Except.error e
    | Except.ok _ => Except.ok (common_hal_busio_uart_set_timeout s timeout)

/-- Modelled from the spec: `common_hal_busio_uart_clear_rx_buffer` discards
all buffered units unconditionally (§4.2 clear). -/
def common_hal_busio_uart_clear_rx_buffer (s : UartState) : UartState :=
  { s with rxBuf := [] }

/-- `busio_uart_obj_reset_input_buffer` (UART.c). -/
def busio_uart_obj_reset_input_buffer (s : UartState) :
    Except UartError UartState :=
  match check_for_deinit s with
  | Except.error e => Except.error e
  | Except.ok _ => Except.ok (common_hal_busio_uart_clear_rx_buffer s)

/-- A concrete active session used to instantiate hypotheses of the theorems
below. -/
def sampleState : UartState :=
  { deinited := false
    baudrate := 9600
    timeout := 1
    bits := 8
    parity := uart_parity_t.none
    stop := 1
    rxBuf := [65, 66, 67]
    rxCapacity := 64
    readyToTx := true
    rts := PinArg.none
    cts := PinArg.none
    rs485_dir := PinArg.none
    rs485_invert := false }

/-- Concrete construction arguments with every field acceptable, used to
instantiate hypotheses of the theorems below. -/
def sampleArgs : MakeNewArgs :=
  { busio_uart_default_args (PinArg.pin true 0) (PinArg.pin true 1) with
    rx := PinArg.pin true 1 }

/-- The pin arguments of a construction call pass the binding's pin
assertions (each of rx/tx is a pin or `None`, and any pin is free). -/
def pinChecksOk (a : MakeNewArgs) : Prop :=
  assert_pin a.rx true = Except.ok () ∧ assert_pin_free a.rx = Except.ok () ∧
  assert_pin a.tx true = Except.ok () ∧ assert_pin_free a.tx = Except.ok ()

instance (a : MakeNewArgs) : Decidable (pinChecksOk a) := by
  unfold pinChecksOk; infer_instance

/-- Construction arguments whose `bits` value 263 reduces to 7 modulo 2^8. -/
def bits263Args : MakeNewArgs := { sampleArgs with bits := 263 }

/-- Construction arguments whose `stop` value 257 reduces to 1 modulo 2^8. -/
def stop257Args : MakeNewArgs := { sampleArgs with stop := 257 }

/-- Construction arguments with both the tx and the rx line absent. -/
def bothNoneArgs : MakeNewArgs :=
  { sampleArgs with tx := PinArg.none, rx := PinArg.none }

/-- Construction arguments with a negative receiver buffer capacity. -/
def negBufArgs : MakeNewArgs :=
  { sampleArgs with receiver_buffer_size := -1 }

/-- Construction arguments whose parity argument is an arbitrary non-parity
object. -/
def parityOtherArgs : MakeNewArgs :=
  { sampleArgs with parity := ParityArg.other 42 }

/-- Construction arguments with an out-of-range timeout of 150 seconds. -/
def timeout150Args : MakeNewArgs := { sampleArgs with timeout := 150 }

/-- Construction arguments with a timeout of 0 seconds. -/
def timeout0Args : MakeNewArgs := { sampleArgs with timeout := 0 }

/-- C3: after `deinit()` every subsequent operation other than `deinit`
(read, write, ioctl/readiness poll, get/set baudrate, get/set timeout,
in_waiting, clear_rx_buffer) fails with the deinitialized error, and a second
`deinit()` is a no-op rather than an error. -/
theorem deinit_terminal_state (s : UartState) (n : Nat) (data : List Nat)
    (req arg : Nat) (bd : Int) (t : ℚ) :
    busio_uart_read (busio_uart_obj_deinit s) n =
      Except.error UartError.deinitialized ∧
    busio_uart_write (busio_uart_obj_deinit s) data =
      Except.error UartError.deinitialized ∧
    busio_uart_ioctl (busio_uart_obj_deinit s) req arg =
      Except.error UartError.deinitialized ∧
    busio_uart_obj_get_baudrate (busio_uart_obj_deinit s) =
      Except.error UartError.deinitialized ∧
    busio_uart_obj_set_baudrate (busio_uart_obj_deinit s) bd =
      Except.error UartError.deinitialized ∧
    busio_uart_obj_get_timeout (busio_uart_obj_deinit s) =
      Except.error UartError.deinitialized ∧
    busio_uart_obj_set_timeout (busio_uart_obj_deinit s) t =
      Except.error UartError.deinitialized ∧
    busio_uart_obj_get_in_waiting (busio_uart_obj_deinit s) =
      Except.error UartError.deinitialized ∧
    busio_uart_obj_reset_input_buffer (busio_uart_obj_deinit s) =
      Except.error UartError.deinitialized ∧
    busio_uart_obj_deinit (busio_uart_obj_deinit s) = busio_uart_obj_deinit s := by
  simp [busio_uart_obj_deinit, common_hal_busio_uart_deinit, busio_uart_read,
    busio_uart_write, busio_uart_ioctl, busio_uart_obj_get_baudrate,
    busio_uart_obj_set_baudrate, busio_uart_obj_get_timeout,
    busio_uart_obj_set_timeout, busio_uart_obj_get_in_waiting,
    busio_uart_obj_reset_input_buffer, check_for_deinit,
    common_hal_busio_uart_deinited]

/-- C4: on an active session, `read` with `size == 0` returns count 0
immediately, leaves the session state untouched, and never reaches the HAL
read (so no receive-buffer access and no timeout wait occurs). -/
theorem read_zero_bytes_early_return (s : UartState)
    (h : s.deinited = false) :
    busio_uart_read s 0 =
      Except.ok { count := 0, state := s, halReadCalled := false } := by
  simp [busio_uart_read, check_for_deinit, common_hal_busio_uart_deinited, h]

theorem read_zero_bytes_early_return_witness :
    busio_uart_read sampleState 0 =
      Except.ok { count := 0, state := sampleState, halReadCalled := false } :=
  read_zero_bytes_early_return sampleState rfl

/-- C9: on a deinitialized session, `read` fails with the deinitialized error
even when the requested size is 0: `check_for_deinit` runs before the
`size == 0` early return. -/
theorem read_checks_deinit_before_size (s : UartState)
    (h : s.deinited = true) :
    busio_uart_read s 0 = Except.error UartError.deinitialized := by
  simp [busio_uart_read, check_for_deinit, common_hal_busio_uart_deinited, h]

theorem read_checks_deinit_before_size_witness :
    busio_uart_read (busio_uart_obj_deinit sampleState) 0 =
      Except.error UartError.deinitialized :=
  read_checks_deinit_before_size (busio_uart_obj_deinit sampleState) rfl

/-- C5: on an active session, the `MP_IOCTL_POLL` request returns a flag word
whose `MP_IOCTL_POLL_RD` bit is set iff readability was requested and the
receive buffer holds at least one character, and whose `MP_IOCTL_POLL_WR` bit
is set iff writability was requested and the hardware transmit path can
accept data; the (pure) poll never blocks. -/
theorem ioctl_poll_readiness (s : UartState) (flags : Nat)
    (h : s.deinited = false) :
    ∃ ret, busio_uart_ioctl s MP_IOCTL_POLL flags =
        Except.ok (IoctlResult.ret ret) ∧
      (ret &&& MP_IOCTL_POLL_RD ≠ 0 ↔
        flags &&& MP_IOCTL_POLL_RD ≠ 0 ∧
          common_hal_busio_uart_rx_characters_available s > 0) ∧
      (ret &&& MP_IOCTL_POLL_WR ≠ 0 ↔
        flags &&& MP_IOCTL_POLL_WR ≠ 0 ∧
          common_hal_busio_uart_ready_to_tx s = true) := by
  have hc : check_for_deinit s = Except.ok () := by
    simp [check_for_deinit, common_hal_busio_uart_deinited, h]
  by_cases h1 : flags &&& MP_IOCTL_POLL_RD ≠ 0 ∧
      common_hal_busio_uart_rx_characters_available s > 0 <;>
    by_cases h2 : flags &&& MP_IOCTL_POLL_WR ≠ 0 ∧
      common_hal_busio_uart_ready_to_tx s = true
  · refine ⟨5, ?_, iff_of_true (by decide) h1, iff_of_true (by decide) h2⟩
    unfold busio_uart_ioctl
    rw [hc]
    dsimp only
    rw [if_pos rfl, if_pos h1, if_pos h2]
    decide
  · refine ⟨1, ?_, iff_of_true (by decide) h1, iff_of_false (by decide) h2⟩
    unfold busio_uart_ioctl
    rw [hc]
    dsimp only
    rw [if_pos rfl, if_pos h1, if_neg h2]
    decide
  · refine ⟨4, ?_, iff_of_false (by decide) h1, iff_of_true (by decide) h2⟩
    unfold busio_uart_ioctl
    rw [hc]
    dsimp only
    rw [if_pos rfl, if_neg h1, if_pos h2]
    decide
  · refine ⟨0, ?_, iff_of_false (by decide) h1, iff_of_false (by decide) h2⟩
    unfold busio_uart_ioctl
    rw [hc]
    dsimp only
    rw [if_pos rfl, if_neg h1, if_neg h2]

theorem ioctl_poll_readiness_witness :
    ∃ ret, busio_uart_ioctl sampleState MP_IOCTL_POLL 5 =
        Except.ok (IoctlResult.ret ret) ∧
      (ret &&& MP_IOCTL_POLL_RD ≠ 0 ↔
        5 &&& MP_IOCTL_POLL_RD ≠ 0 ∧
          common_hal_busio_uart_rx_characters_available sampleState > 0) ∧
      (ret &&& MP_IOCTL_POLL_WR ≠ 0 ↔
        5 &&& MP_IOCTL_POLL_WR ≠ 0 ∧
          common_hal_busio_uart_ready_to_tx sampleState = true) :=
  ioctl_poll_readiness sampleState 5 rfl

/-- Inversion: a successful construction call reached (and is decided by) the
HAL construct, invoked on the truncated `bits`/`stop` values and the computed
parity. -/
theorem make_new_ok_inv (a : MakeNewArgs) (s : UartState)
    (hok : busio_uart_make_new a = Except.ok s) :
    common_hal_busio_uart_construct a.tx a.rx a.rts a.cts a.rs485_dir
      a.rs485_invert a.baudrate (uint8_of_mp_int a.bits)
      (if a.parity = ParityArg.evenObj then uart_parity_t.even
       else if a.parity = ParityArg.oddObj then uart_parity_t.odd
       else uart_parity_t.none)
      (uint8_of_mp_int a.stop) a.timeout a.receiver_buffer_size =
      Except.ok s := by
  unfold busio_uart_make_new at hok
  dsimp only at hok
  split at hok
  · exact Except.noConfusion hok
  split at hok
  · exact Except.noConfusion hok
  split at hok
  · exact Except.noConfusion hok
  split at hok
  · exact Except.noConfusion hok
  split at hok
  · exact Except.noConfusion hok
  split at hok
  · exact Except.noConfusion hok
  split at hok
  · exact Except.noConfusion hok
  exact hok

/-- Inversion: a successful HAL construct implies the line and buffer checks
passed and determines the produced session. -/
theorem construct_ok_inv (tx rx rts cts rs485_dir : PinArg)
    (rs485_invert : Bool) (baudrate : Int) (bits : Nat)
    (parity : uart_parity_t) (stop : Nat) (timeout : ℚ)
    (receiver_buffer_size : Int) (s : UartState)
    (hok : common_hal_busio_uart_construct tx rx rts cts rs485_dir
      rs485_invert baudrate bits parity stop timeout receiver_buffer_size =
      Except.ok s) :
    ¬(tx = PinArg.none ∧ rx = PinArg.none) ∧
    ¬(receiver_buffer_size < 0) ∧
    s = { deinited := false
          baudrate := baudrate
          timeout := timeout
          bits := bits
          parity := parity
          stop := stop
          rxBuf := []
          rxCapacity := receiver_buffer_size.toNat
          readyToTx := true
          rts := rts
          cts := cts
          rs485_dir := rs485_dir
          rs485_invert := rs485_invert } := by
  unfold common_hal_busio_uart_construct at hok
  split at hok
  · exact Except.noConfusion hok
  split at hok
  · exact Except.noConfusion hok
  rename_i h1 h2
  injection hok with hs
  exact ⟨h1, h2, hs.symm⟩

/-- C1 counterexample: the binding truncates `bits` and `stop` to `uint8_t`
before validating, so construction with `bits = 263` (truncated to 7)
succeeds instead of failing with the word-size error, and construction with
`stop = 257` (truncated to 1) succeeds instead of failing with the stop-bits
error. -/
theorem make_new_truncation_counterexample :
    bits263Args.bits = 263 ∧ (9 : Int) < bits263Args.bits ∧
    busio_uart_make_new bits263Args ≠ Except.error UartError.invalidWordSize ∧
    (busio_uart_make_new bits263Args).isOk = true ∧
    stop257Args.stop = 257 ∧ stop257Args.stop ≠ 1 ∧ stop257Args.stop ≠ 2 ∧
    busio_uart_make_new stop257Args ≠ Except.error UartError.invalidStopBits ∧
    (busio_uart_make_new stop257Args).isOk = true := by decide

/-- C1 (amended): for a construction call whose pin arguments pass the pin
assertions, writing b and st for `bits` and `stop` reduced modulo 2^8 (the
binding truncates both to `uint8_t` before validating): if b is outside
{7,8,9} construction fails with the word-size error; if b is valid but st is
outside {1,2} it fails with the stop-bits error; and if b ∈ {7,8,9},
st ∈ {1,2}, the timeout is within [0,100], at least one of tx/rx is present
and the buffer capacity is nonnegative, construction succeeds (for any parity
argument). The final conjunct records that the two validation errors can
never originate from `common_hal_busio_uart_construct`, i.e. they are raised
before any hardware construction is performed. -/
theorem make_new_validation (a : MakeNewArgs) (hp : pinChecksOk a) :
    ((uint8_of_mp_int a.bits < 7 ∨ 9 < uint8_of_mp_int a.bits) →
      busio_uart_make_new a = Except.error UartError.invalidWordSize) ∧
    ((7 ≤ uint8_of_mp_int a.bits ∧ uint8_of_mp_int a.bits ≤ 9) →
      (uint8_of_mp_int a.stop ≠ 1 ∧ uint8_of_mp_int a.stop ≠ 2) →
      busio_uart_make_new a = Except.error UartError.invalidStopBits) ∧
    ((7 ≤ uint8_of_mp_int a.bits ∧ uint8_of_mp_int a.bits ≤ 9) →
      (uint8_of_mp_int a.stop = 1 ∨ uint8_of_mp_int a.stop = 2) →
      0 ≤ a.timeout → a.timeout ≤ 100 →
      ¬(a.tx = PinArg.none ∧ a.rx = PinArg.none) →
      0 ≤ a.receiver_buffer_size →
      (busio_uart_make_new a).isOk = true) ∧
    (∀ (tx rx rts cts dir : PinArg) (inv : Bool) (bd : Int) (bits : Nat)
      (p : uart_parity_t) (stop : Nat) (t : ℚ) (buf : Int),
      common_hal_busio_uart_construct tx rx rts cts dir inv bd bits p stop
          t buf ≠ Except.error UartError.invalidWordSize ∧
        common_hal_busio_uart_construct tx rx rts cts dir inv bd bits p stop
          t buf ≠ Except.error UartError.invalidStopBits) := by
  obtain ⟨hp1, hp2, hp3, hp4⟩ := hp
  refine ⟨?_, ?_, ?_, ?_⟩
  · intro hbits
    unfold busio_uart_make_new
    rw [hp1, hp2, hp3, hp4]
    dsimp only
    rw [if_pos hbits]
  · intro hbits hstop
    unfold busio_uart_make_new
    rw [hp1, hp2, hp3, hp4]
    dsimp only
    rw [if_neg (by omega), if_pos hstop]
  · intro hbits hstop ht0 ht1 hpins hbuf
    have hv : validate_timeout a.timeout = Except.ok () := by
      unfold validate_timeout
      rw [if_neg (by push_neg; exact ⟨ht0, ht1⟩)]
    unfold busio_uart_make_new
    rw [hp1, hp2, hp3, hp4]
    dsimp only
    rw [if_neg (by omega), if_neg (by omega), hv]
    dsimp only
    unfold common_hal_busio_uart_construct
    rw [if_neg hpins, if_neg (by omega)]
    rfl
  · intro tx rx rts cts dir inv bd bits p stop t buf
    unfold common_hal_busio_uart_construct
    constructor <;> split_ifs <;> simp

theorem make_new_validation_witness :
    pinChecksOk sampleArgs ∧
    (busio_uart_make_new sampleArgs).isOk = true :=
  ⟨by decide,
    (make_new_validation sampleArgs (by decide)).2.2.1 (by decide) (by decide)
      (by decide) (by decide) (by decide) (by decide)⟩

/-- C2: a timeout below 0.0 or above 100.0 is rejected with the timeout
error both at construction (once the earlier validations pass) and by
`set_timeout` on an active session; a timeout within [0.0, 100.0] is never
rejected with the timeout error, and `set_timeout` then stores it. -/
theorem timeout_validation (s : UartState) (t : ℚ) (a : MakeNewArgs)
    (hs : s.deinited = false) (hp : pinChecksOk a) (hat : a.timeout = t)
    (hbits : 7 ≤ uint8_of_mp_int a.bits ∧ uint8_of_mp_int a.bits ≤ 9)
    (hstop : uint8_of_mp_int a.stop = 1 ∨ uint8_of_mp_int a.stop = 2) :
    ((t < 0 ∨ 100 < t) →
      busio_uart_make_new a = Except.error UartError.invalidTimeout ∧
      busio_uart_obj_set_timeout s t = Except.error UartError.invalidTimeout) ∧
    (0 ≤ t → t ≤ 100 →
      busio_uart_make_new a ≠ Except.error UartError.invalidTimeout ∧
      busio_uart_obj_set_timeout s t =
        Except.ok (common_hal_busio_uart_set_timeout s t)) := by
  obtain ⟨hp1, hp2, hp3, hp4⟩ := hp
  have hc : check_for_deinit s = Except.ok () := by
    simp [check_for_deinit, common_hal_busio_uart_deinited, hs]
  constructor
  · intro hbad
    have hv : validate_timeout t = Except.error UartError.invalidTimeout := by
      unfold validate_timeout
      rw [if_pos hbad]
    constructor
    · unfold busio_uart_make_new
      rw [hp1, hp2, hp3, hp4]
      dsimp only
      rw [if_neg (by omega), if_neg (by omega), hat, hv]
    · unfold busio_uart_obj_set_timeout
      rw [hc]
      dsimp only
      rw [hv]
  · intro ht0 ht1
    have hv : validate_timeout t = Except.ok () := by
      unfold validate_timeout
      rw [if_neg (by push_neg; exact ⟨ht0, ht1⟩)]
    constructor
    · unfold busio_uart_make_new
      rw [hp1, hp2, hp3, hp4]
      dsimp only
      rw [if_neg (by omega), if_neg (by omega), hat, hv]
      dsimp only
      unfold common_hal_busio_uart_construct
      split_ifs <;> simp
    · unfold busio_uart_obj_set_timeout
      rw [hc]
      dsimp only
      rw [hv]

theorem timeout_validation_witness :
    (busio_uart_make_new timeout150Args =
        Except.error UartError.invalidTimeout ∧
      busio_uart_obj_set_timeout sampleState 150 =
        Except.error UartError.invalidTimeout) ∧
    (busio_uart_make_new timeout0Args ≠
        Except.error UartError.invalidTimeout ∧
      busio_uart_obj_set_timeout sampleState 0 =
        Except.ok (common_hal_busio_uart_set_timeout sampleState 0)) :=
  ⟨(timeout_validation sampleState 150 timeout150Args rfl (by decide) rfl
      (by decide) (by decide)).1 (by decide),
    (timeout_validation sampleState 0 timeout0Args rfl (by decide) rfl
      (by decide) (by decide)).2 (by decide) (by decide)⟩

/-- C6: a construction call with a negative `receiver_buffer_size` whose
other arguments are acceptable fails with the buffer-size error and yields no
session. -/
theorem negative_buffer_size_rejected (a : MakeNewArgs) (hp : pinChecksOk a)
    (hbits : 7 ≤ uint8_of_mp_int a.bits ∧ uint8_of_mp_int a.bits ≤ 9)
    (hstop : uint8_of_mp_int a.stop = 1 ∨ uint8_of_mp_int a.stop = 2)
    (ht0 : 0 ≤ a.timeout) (ht1 : a.timeout ≤ 100)
    (hpins : ¬(a.tx = PinArg.none ∧ a.rx = PinArg.none))
    (hneg : a.receiver_buffer_size < 0) :
    busio_uart_make_new a = Except.error UartError.invalidBufferSize := by
  obtain ⟨hp1, hp2, hp3, hp4⟩ := hp
  have hv : validate_timeout a.timeout = Except.ok () := by
    unfold validate_timeout
    rw [if_neg (by push_neg; exact ⟨ht0, ht1⟩)]
  unfold busio_uart_make_new
  rw [hp1, hp2, hp3, hp4]
  dsimp only
  rw [if_neg (by omega), if_neg (by omega), hv]
  dsimp only
  unfold common_hal_busio_uart_construct
  rw [if_neg hpins, if_pos hneg]

theorem negative_buffer_size_rejected_witness :
    busio_uart_make_new negBufArgs =
      Except.error UartError.invalidBufferSize :=
  negative_buffer_size_rejected negBufArgs (by decide) (by decide)
    (by decide) (by decide) (by decide) (by decide) (by decide)

/-- C7: a construction call in which both the tx and the rx line are `None`
never produces a session. -/
theorem tx_rx_both_none_rejected (a : MakeNewArgs)
    (htx : a.tx = PinArg.none) (hrx : a.rx = PinArg.none) :
    ∀ s, busio_uart_make_new a ≠ Except.ok s := by
  intro s hok
  have h := construct_ok_inv _ _ _ _ _ _ _ _ _ _ _ _ _
    (make_new_ok_inv a s hok)
  exact h.1 ⟨htx, hrx⟩

theorem tx_rx_both_none_rejected_witness :
    busio_uart_make_new bothNoneArgs ≠ Except.ok sampleState :=
  tx_rx_both_none_rejected bothNoneArgs rfl rfl sampleState

/-- C8: a parity argument that is neither the EVEN singleton nor the ODD
singleton — including arbitrary non-parity objects — is treated exactly as
`None`: construction behaves identically to a call with parity `None`, and
any session produced carries `PARITY_NONE`; no parity value is ever
rejected. -/
theorem parity_never_rejected (a : MakeNewArgs)
    (h1 : a.parity ≠ ParityArg.evenObj) (h2 : a.parity ≠ ParityArg.oddObj) :
    busio_uart_make_new a =
      busio_uart_make_new { a with parity := ParityArg.noneObj } ∧
    ∀ s, busio_uart_make_new a = Except.ok s →
      s.parity = uart_parity_t.none := by
  constructor
  · simp [busio_uart_make_new, h1, h2]
  · intro s hok
    have h := construct_ok_inv _ _ _ _ _ _ _ _ _ _ _ _ _
      (make_new_ok_inv a s hok)
    rw [h.2.2]
    dsimp only
    rw [if_neg h1, if_neg h2]

theorem parity_never_rejected_witness :
    (busio_uart_make_new parityOtherArgs =
      busio_uart_make_new { parityOtherArgs with
        parity := ParityArg.noneObj }) ∧
    ∀ s, busio_uart_make_new parityOtherArgs = Except.ok s →
      s.parity = uart_parity_t.none :=
  parity_never_rejected parityOtherArgs (by decide) (by decide)

/-- C10: a construction call that omits every optional argument takes the
fixed defaults of the `allowed_args` table — baudrate 9600, bits 8, parity
`None`, stop 1, timeout 1 second, receiver_buffer_size 64, rts/cts/rs485_dir
absent and rs485_invert false — and (pins permitting) yields exactly the
session those defaults describe. -/
theorem default_arguments (tx rx : PinArg)
    (hp : pinChecksOk (busio_uart_default_args tx rx))
    (hpins : ¬(tx = PinArg.none ∧ rx = PinArg.none)) :
    busio_uart_make_new (busio_uart_default_args tx rx) =
      Except.ok
        { deinited := false
          baudrate := 9600
          timeout := 1
          bits := 8
          parity := uart_parity_t.none
          stop := 1
          rxBuf := []
          rxCapacity := 64
          readyToTx := true
          rts := PinArg.none
          cts := PinArg.none
          rs485_dir := PinArg.none
          rs485_invert := false } := by
  obtain ⟨hp1, hp2, hp3, hp4⟩ := hp
  unfold busio_uart_make_new
  rw [hp1, hp2, hp3, hp4]
  dsimp only [busio_uart_default_args]
  rw [if_neg (by decide), if_neg (by decide),
    show validate_timeout (1 : ℚ) = Except.ok () from by decide]
  dsimp only
  unfold common_hal_busio_uart_construct
  rw [if_neg hpins, if_neg (by decide)]
  decide

theorem default_arguments_witness :
    busio_uart_make_new
        (busio_uart_default_args (PinArg.pin true 0) (PinArg.pin true 1)) =
      Except.ok
        { deinited := false
          baudrate := 9600
          timeout := 1
          bits := 8
          parity := uart_parity_t.none
          stop := 1
          rxBuf := []
          rxCapacity := 64
          readyToTx := true
          rts := PinArg.none
          cts := PinArg.none
          rs485_dir := PinArg.none
          rs485_invert := false } :=
  default_arguments (PinArg.pin true 0) (PinArg.pin true 1) (by decide)
    (by decide)

end BusioUart
